import Mathlib

/-!
A shallow embedding of `src/index.ts` of the `restapi-typescript-decorators`
library, together with proofs about the request-assembly pipeline.

Modelling conventions, used throughout:

* JavaScript runtime values are modelled by the inductive `JSValue`.
  Arrays, functions and symbols are omitted (the library logic under study
  never constructs or inspects them), and numbers are modelled as `Int`
  (the library performs no arithmetic on them, only `String` coercion).
* A JavaScript object is modelled as an assignment trace
  `List (String × v)`; `objGet` returns the value of the *last* assignment
  to a key, so `objSet` (property assignment) and `objectAssign`
  (`lodash.assign`) are plain list appends.  `Object.keys` enumeration is
  modelled by `dedupKeys` (first-assignment order, one entry per key),
  matching JavaScript's enumeration of non-numeric string keys.
* `String.prototype.replace(new RegExp(pat, 'g'), v)` is modelled as
  literal global substring replacement (`jsReplaceAll`).  This is exact
  whenever `pat` contains no regular-expression metacharacters and `v`
  contains no `$`-patterns, which is the contract the library's URL
  templates rely on.
* External collaborators that the source treats as opaque primitives
  (`JSON.stringify`, `JSON.parse`, `qs.stringify`) are parameters of the
  corresponding definitions; a `JSON.parse` that throws is modelled as
  returning `none`.  The base64 primitive (`Buffer.from(str).toString('base64')`)
  is implemented concretely.
* Network transport, promises and cancellation are outside the model; the
  definitions below compute the assembled request (URL, method, headers,
  body) and the pure request/response transforms.
-/

/-- Fragment of JavaScript runtime values sufficient for the library. -/
inductive JSValue where
  | undefined
  | null
  | bool (b : Bool)
  | num (n : Int)
  | str (s : String)
  | obj (fields : List (String × JSValue))
  deriving Repr

/-- Lookup in a JS object modelled as an assignment trace: the last
assignment to the key wins; `none` models `undefined`. -/
def objGet {v : Type} (o : List (String × v)) (k : String) : Option v :=
  o.foldl (fun acc p => if p.1 = k then some p.2 else acc) none

/-- JS property assignment `o[k] = value`. -/
def objSet {v : Type} (o : List (String × v)) (k : String) (value : v) : List (String × v) :=
  o ++ [(k, value)]

/-- `lodash.assign(a, b)` (also `Object.assign`): every key of `b`
overwrites a same-named key of `a`. -/
def objectAssign {v : Type} (a b : List (String × v)) : List (String × v) :=
  a ++ b

/-- First-occurrence deduplication, keeping JS `Object.keys` enumeration
order (first-assignment order). -/
def dedupKeysAux (seen : List String) : List String → List String
  | [] => []
  | k :: rest =>
    if k ∈ seen then dedupKeysAux seen rest
    else k :: dedupKeysAux (k :: seen) rest

/-- Key enumeration of an assignment trace: each key once, in
first-assignment order. -/
def dedupKeys (l : List String) : List String :=
  dedupKeysAux [] l

/-- `Object.keys` of a JS value (for strings, the index keys). -/
def jsKeys : JSValue → List String
  | .obj fields => dedupKeys (fields.map Prod.fst)
  | .str s => (List.range s.length).map (fun i => toString i)
  | _ => []

/-- `Object.keys(o)` each paired with its current value: models the
`Object.keys(o).forEach(k => ... o[k] ...)` iteration pattern. -/
def objEntries {v : Type} (o : List (String × v)) : List (String × v) :=
  (dedupKeys (o.map Prod.fst)).filterMap (fun k => (objGet o k).map (fun x => (k, x)))

/-- JavaScript truthiness of a `JSValue`. -/
def jsTruthy : JSValue → Bool
  | .undefined => false
  | .null => false
  | .bool b => b
  | .num n => if n = 0 then false else true
  | .str s => if s = "" then false else true
  | .obj _ => true

/-- JavaScript `String(value)` coercion. -/
def jsToString : JSValue → String
  | .undefined => "undefined"
  | .null => "null"
  | .bool b => if b then "true" else "false"
  | .num n => toString n
  | .str s => s
  | .obj _ => "[object Object]"

/-- JS property read `o[k]` on an instance's own properties
(`undefined` when absent). -/
def jsGet (props : List (String × JSValue)) (k : String) : JSValue :=
  (objGet props k).getD JSValue.undefined

/-- `String.prototype.toLowerCase` (ASCII, which is all the library needs). -/
def jsToLowerCase (s : String) : String :=
  String.mk (s.data.map Char.toLower)

/-- `String.prototype.toUpperCase` (ASCII, which is all the library needs). -/
def jsToUpperCase (s : String) : String :=
  String.mk (s.data.map Char.toUpper)

/-- Does the character list start with the given pattern? -/
def strStartsWithList : List Char → List Char → Bool
  | _, [] => true
  | [], _ :: _ => false
  | c :: cs, p :: ps => c == p && strStartsWithList cs ps

/-- Does the character list contain the pattern as a contiguous run?
Models `String.prototype.indexOf(pat) >= 0`. -/
def strContainsList (pat : List Char) : List Char → Bool
  | [] => strStartsWithList [] pat
  | c :: cs => strStartsWithList (c :: cs) pat || strContainsList pat cs

/-- Worker for `jsReplaceAll`: scan left to right, replacing each
(non-overlapping) occurrence of `pat` and not rescanning the replacement.
The fuel argument (instantiated with the input length) only makes the
recursion structural; it never runs out because every step consumes at
least one input character while `pat` is nonempty. -/
def replaceAux (pat repl : List Char) : Nat → List Char → List Char
  | _, [] => []
  | 0, s => s
  | fuel + 1, c :: cs =>
    if strStartsWithList (c :: cs) pat then
      repl ++ replaceAux pat repl fuel (List.drop pat.length (c :: cs))
    else
      c :: replaceAux pat repl fuel cs

/-- `s.replace(new RegExp(pat, 'g'), repl)` for a metacharacter-free `pat`
and `$`-pattern-free `repl`: global, literal, left-to-right,
non-overlapping replacement. -/
def jsReplaceAll (s pat repl : String) : String :=
  String.mk (replaceAux pat.data repl.data s.data.length s.data)

/-- UTF-8 encoding of one character, as byte values. -/
def utf8EncodeChar (c : Char) : List Nat :=
  let n := c.toNat
  if n < 128 then [n]
  else if n < 2048 then [192 + n / 64, 128 + n % 64]
  else if n < 65536 then [224 + n / 4096, 128 + (n / 64) % 64, 128 + n % 64]
  else [240 + n / 262144, 128 + (n / 4096) % 64, 128 + (n / 64) % 64, 128 + n % 64]

/-- The base64 alphabet. -/
def base64Chars : List Char :=
  "ABCDEFGHIJKLMNOPQRSTUVWXYZabcdefghijklmnopqrstuvwxyz0123456789+/".data

/-- The base64 digit for a 6-bit value. -/
def b64Char (n : Nat) : Char :=
  base64Chars.getD n '='

/-- Standard base64 of a byte sequence, processed three bytes at a time. -/
def base64Chunks : List Nat → List Char
  | [] => []
  | [a] => [b64Char (a / 4), b64Char (a % 4 * 16), '=', '=']
  | [a, b] => [b64Char (a / 4), b64Char (a % 4 * 16 + b / 16), b64Char (b % 16 * 4), '=']
  | a :: b :: c :: rest =>
    b64Char (a / 4) :: b64Char (a % 4 * 16 + b / 16) ::
      b64Char (b % 16 * 4 + c / 64) :: b64Char (c % 64) :: base64Chunks rest

/-- `_getBase64FromString`: `Buffer.from(str).toString('base64')` —
base64 of the UTF-8 bytes of the string. -/
def _getBase64FromString (str : String) : String :=
  String.mk (base64Chunks (str.data.map utf8EncodeChar).flatten)

/-- The assembled fetch options (typed `Request` in the source): URL,
HTTP method, header object and body.  The cancellation `signal` and any
extra static fetch options are outside the model. -/
structure FetchOptions where
  url : String := ""
  method : String := "GET"
  headers : List (String × String) := []
  body : JSValue := JSValue.undefined
  deriving Repr

/-- The raw transport response, with its body already read as text
(`resp.text()`). -/
structure Response where
  url : String := ""
  ok : Bool := true
  status : Nat := 200
  statusText : String := ""
  text : String := ""
  deriving Repr

/-- `_isOfTypeJson`: `(typeAsString || '').toLowerCase().indexOf('application/json') >= 0`.
The argument is `none` when the header is absent (`undefined`). -/
def _isOfTypeJson (typeAsString : Option String) : Bool :=
  strContainsList ("application/json".data) (jsToLowerCase (typeAsString.getD "")).data

/-- `_defaultRequestTransform`, parametrised by the external primitive
`JSON.stringify` (which returns `undefined`, i.e. `none`, on `undefined`
input).  For `GET` the body stays `undefined`; otherwise, with a JSON
`Accept` header the body becomes the serialized text, and with a
non-JSON `Accept` header it becomes `body || null`. -/
def _defaultRequestTransform (stringify : JSValue → Option String)
    (fetchOptionToUse : FetchOptions) (body : JSValue) : FetchOptions :=
  let bodyToUse : JSValue :=
    if fetchOptionToUse.method = "GET" then
      JSValue.undefined
    else if _isOfTypeJson (objGet fetchOptionToUse.headers "Accept") then
      (stringify body).elim JSValue.undefined JSValue.str
    else if jsTruthy body then body else JSValue.null
  { fetchOptionToUse with body := bodyToUse }

/-- `_defaultResponseTransform`, parametrised by the external primitive
`JSON.parse` (`none` models the parser throwing).  Reads the response
body as text; with a JSON `Accept` header it returns the parsed value,
falling back to the raw text when parsing fails; otherwise it returns
the raw text. -/
def _defaultResponseTransform (parse : String → Option JSValue)
    (fetchOptionToUse : FetchOptions) (resp : Response) : JSValue :=
  let respText := resp.text
  if _isOfTypeJson (objGet fetchOptionToUse.headers "Accept") then
    match parse respText with
    | some v => v
    | none => JSValue.str respText
  else
    JSValue.str respText

/-- Per-method decorator metadata:
`__decorators[methodName]['@PathParam' | '@QueryParams' | '@RequestBody']`. -/
structure MethodMeta where
  pathParams : List (String × Nat) := []
  queryParams : Option Nat := none
  requestBody : Option Nat := none
  deriving Repr, DecidableEq

/-- The whole `__decorators` side table of a class: per-method metadata
plus the class-global `'@CredentialProperty'` map. -/
structure Decorators where
  methods : List (String × MethodMeta) := []
  credProps : List (String × String) := []
  deriving Repr, DecidableEq

/-- `PathParam(paramKey)`:
`set(target, ['__decorators', methodName, '@PathParam', paramKey], paramIdx)`. -/
def PathParam (paramKey : String) (target : Decorators) (methodName : String)
    (paramIdx : Nat) : Decorators :=
  let meta := (objGet target.methods methodName).getD {}
  { target with
      methods := objSet target.methods methodName
        { meta with pathParams := objSet meta.pathParams paramKey paramIdx } }

/-- `QueryParams`:
`set(target, ['__decorators', methodName, '@QueryParams'], paramIdx)`. -/
def QueryParams (target : Decorators) (methodName : String) (paramIdx : Nat) : Decorators :=
  let meta := (objGet target.methods methodName).getD {}
  { target with
      methods := objSet target.methods methodName { meta with queryParams := some paramIdx } }

/-- `RequestBody`:
`set(target, ['__decorators', methodName, '@RequestBody'], paramIdx)`. -/
def RequestBody (target : Decorators) (methodName : String) (paramIdx : Nat) : Decorators :=
  let meta := (objGet target.methods methodName).getD {}
  { target with
      methods := objSet target.methods methodName { meta with requestBody := some paramIdx } }

/-- `CredentialProperty(credentialType)`:
`set(target, ['__decorators', '@CredentialProperty', credentialType], propertyName)`. -/
def CredentialProperty (credentialType : String) (target : Decorators)
    (propertyName : String) : Decorators :=
  { target with credProps := objSet target.credProps credentialType propertyName }

/-- The merged default transport configuration installed on the decorated
class prototype (`mode`, `cache`, `credentials`, `headers`; the TS types
of `RequestInit` fix these field types). -/
structure DefaultConfigs where
  mode : String := "cors"
  cache : String := "no-cache"
  credentials : String := "include"
  headers : List (String × String) := []
  deriving Repr, DecidableEq

/-- What `RestClient` installs on the prototype of the decorated class:
`defaultConfigs`, `baseUrl` and `authType`. -/
structure ClientDefaults where
  defaultConfigs : DefaultConfigs
  baseUrl : String
  authType : String
  deriving Repr, DecidableEq

/-- An instance of a decorated class at call time (`this` inside the
intercepted method): the prototype fields installed by `RestClient`, the
`__decorators` side table, and the instance's own properties. -/
structure ClientInstance where
  baseUrl : String := ""
  authType : String := ""
  defaultConfigs : DefaultConfigs := {}
  decorators : Decorators := {}
  props : List (String × JSValue) := []
  deriving Repr

/-- Constructing an instance of the decorated class: it sees the
prototype fields installed by `RestClient`, the decorator metadata and
its own properties. -/
def mkInstance (cd : ClientDefaults) (decorators : Decorators)
    (props : List (String × JSValue)) : ClientInstance :=
  { baseUrl := cd.baseUrl, authType := cd.authType, defaultConfigs := cd.defaultConfigs,
    decorators := decorators, props := props }

/-- `_getRequestBody`: `inputs[get(instance, ['__decorators', methodName, '@RequestBody'])]`
(`undefined` when no body argument is registered or the index is out of
range). -/
def _getRequestBody (inst : ClientInstance) (methodName : String)
    (inputs : List JSValue) : JSValue :=
  match ((objGet inst.decorators.methods methodName).getD {}).requestBody with
  | some i => inputs.getD i JSValue.undefined
  | none => JSValue.undefined

/-- `_getPathParams`: `get(instance, ['__decorators', methodName, '@PathParam'], {})`. -/
def _getPathParams (inst : ClientInstance) (methodName : String) : List (String × Nat) :=
  ((objGet inst.decorators.methods methodName).getD {}).pathParams

/-- `_getQueryParams`: `inputs[get(instance, ['__decorators', methodName, '@QueryParams'])] || {}`. -/
def _getQueryParams (inst : ClientInstance) (methodName : String)
    (inputs : List JSValue) : JSValue :=
  let v : JSValue :=
    match ((objGet inst.decorators.methods methodName).getD {}).queryParams with
    | some i => inputs.getD i JSValue.undefined
    | none => JSValue.undefined
  if jsTruthy v then v else JSValue.obj []

/-- `_getCredential`: Bearer reads the registered access-token property;
Basic base64-encodes `` `${username}:${password}` `` from the two
registered credential properties (with JS string coercion, so a missing
property contributes the text `undefined`); any other auth type
(including Digest) falls through the `switch` and yields `undefined`.
A missing registration makes `get` return `undefined`, and
`instance[undefined]` reads the property literally named `"undefined"`. -/
def _getCredential (inst : ClientInstance) : JSValue :=
  if inst.authType = "Bearer" then
    jsGet inst.props ((objGet inst.decorators.credProps "AccessToken").getD "undefined")
  else if inst.authType = "Basic" then
    let username := jsGet inst.props ((objGet inst.decorators.credProps "Username").getD "undefined")
    let password := jsGet inst.props ((objGet inst.decorators.credProps "Password").getD "undefined")
    JSValue.str (_getBase64FromString (jsToString username ++ ":" ++ jsToString password))
  else
    JSValue.undefined

/-- The options of the `RestClient` class decorator: `baseUrl`,
optional `authType`, and the remaining transport defaults (the
`RequestInit` fields the decorator's merge touches; `none` models an
absent key). -/
structure RestClientOptions where
  baseUrl : String
  authType : Option String := none
  mode : Option String := none
  cache : Option String := none
  credentials : Option String := none
  headers : Option (List (String × String)) := none
  deriving Repr, DecidableEq

/-- `RestClient(restOptions)`: merges the explicit defaults
(`mode: 'cors'`, `cache: 'no-cache'`, `credentials: 'include'`,
`headers: {}`) with the caller-supplied defaults (caller wins), then
merges `Accept`/`Content-Type: application/json` under the resulting
headers, and installs the result, `baseUrl` and `authType || ''` on the
class prototype. -/
def RestClient (restOptions : RestClientOptions) : ClientDefaults :=
  let defaultConfigsToUse : DefaultConfigs :=
    { mode := restOptions.mode.getD "cors"
      cache := restOptions.cache.getD "no-cache"
      credentials := restOptions.credentials.getD "include"
      headers := restOptions.headers.getD [] }
  let defaultConfigsToUse : DefaultConfigs :=
    { defaultConfigsToUse with
        headers := objectAssign
          [("Accept", "application/json"), ("Content-Type", "application/json")]
          defaultConfigsToUse.headers }
  { defaultConfigs := defaultConfigsToUse
    baseUrl := restOptions.baseUrl
    authType := restOptions.authType.getD "" }

/-- The options of the `RestApi` method decorator that the assembly step
reads: per-call-site headers (default `{}`) and HTTP method (default
`GET`).  The transform hooks and extra static fetch options are outside
the model (the claims under study use the default transforms). -/
structure RestApiOptions where
  headers : List (String × String) := []
  method : Option String := none
  deriving Repr, DecidableEq

/-- What the intercepted method hands to the request transform: the
assembled fetch options and the resolved body argument. -/
structure AssembledRequest where
  fetchOptions : FetchOptions
  requestBody : JSValue
  deriving Repr

/-- The request-assembly part of `RestApi(url, restApiOptions)`'s
intercepted method body, parametrised by the external `qs.stringify`:
resolve the body argument, build the URL (base + template, then one
global replace of `{key}` per registered path binding, in registration
order, then the optional query string), merge the headers, add the
Authorization header when `authType && credential`, and upper-case the
HTTP method. -/
def RestApi (url : String) (restApiOptions : RestApiOptions) (inst : ClientInstance)
    (methodName : String) (inputs : List JSValue)
    (qsStringify : JSValue → String) : AssembledRequest :=
  let requestBody := _getRequestBody inst methodName inputs
  let urlToUse := inst.baseUrl ++ url
  let pathParams := _getPathParams inst methodName
  let urlToUse := (objEntries pathParams).foldl
    (fun u kv =>
      jsReplaceAll u ("\x7b" ++ kv.1 ++ "\x7d") (jsToString (inputs.getD kv.2 JSValue.undefined)))
    urlToUse
  let queryParams := _getQueryParams inst methodName inputs
  let urlToUse :=
    if (jsKeys queryParams).length > 0 then urlToUse ++ "?" ++ qsStringify queryParams
    else urlToUse
  let headersToUse := objectAssign inst.defaultConfigs.headers restApiOptions.headers
  let authType := inst.authType
  let credential := _getCredential inst
  let headersToUse :=
    if authType ≠ "" ∧ jsTruthy credential = true then
      objSet headersToUse "Authorization" (authType ++ " " ++ jsToString credential)
    else headersToUse
  { fetchOptions :=
      { url := urlToUse
        method := jsToUpperCase (restApiOptions.method.getD "GET")
        headers := headersToUse }
    requestBody := requestBody }

/-! ### Lemmas about the JS-object model -/

theorem objGet_foldl {v : Type} (k : String) (b : List (String × v)) (acc : Option v) :
    b.foldl (fun a p => if p.1 = k then some p.2 else a) acc
      = (objGet b k).elim acc some := by
  induction b generalizing acc with
  | nil => simp [objGet]
  | cons p rest ih =>
    simp only [objGet, List.foldl_cons] at *
    rw [ih, ih (if p.1 = k then some p.2 else none)]
    by_cases h : p.1 = k <;> cases hr : (rest.foldl (fun a p => if p.1 = k then some p.2 else a) none) <;>
      simp [h, hr, objGet] at *

theorem objGet_append {v : Type} (a b : List (String × v)) (k : String) :
    objGet (a ++ b) k = (objGet b k).elim (objGet a k) some := by
  rw [objGet, List.foldl_append, objGet_foldl]
  rfl

theorem objGet_objSet_self {v : Type} (o : List (String × v)) (k : String) (x : v) :
    objGet (objSet o k x) k = some x := by
  rw [objSet, objGet_append]
  simp [objGet]

theorem objGet_objSet_of_ne {v : Type} (o : List (String × v)) (k1 k2 : String) (x : v)
    (h : k1 ≠ k2) : objGet (objSet o k1 x) k2 = objGet o k2 := by
  rw [objSet, objGet_append]
  simp [objGet, h]

theorem objGet_objectAssign {v : Type} (a b : List (String × v)) (k : String) :
    objGet (objectAssign a b) k = (objGet b k).elim (objGet a k) some := by
  rw [objectAssign, objGet_append]

theorem objGet_eq_none_of_not_mem {v : Type} (o : List (String × v)) (k : String)
    (h : k ∉ o.map Prod.fst) : objGet o k = none := by
  induction o with
  | nil => rfl
  | cons p rest ih =>
    simp only [List.map_cons, List.mem_cons] at h
    push_neg at h
    rw [objGet, List.foldl_cons, objGet_foldl, ih h.2]
    simp [Ne.symm h.1]

theorem objGet_cons_of_ne {v : Type} (p : String × v) (rest : List (String × v)) (k : String)
    (h : p.1 ≠ k) : objGet (p :: rest) k = objGet rest k := by
  rw [objGet, List.foldl_cons, objGet_foldl]
  simp only [h, if_neg]
  cases objGet rest k <;> simp

theorem objGet_cons_self_of_not_mem {v : Type} (p : String × v) (rest : List (String × v))
    (h : p.1 ∉ rest.map Prod.fst) : objGet (p :: rest) p.1 = some p.2 := by
  rw [objGet, List.foldl_cons, objGet_foldl, objGet_eq_none_of_not_mem rest p.1 h]
  simp

theorem dedupKeysAux_eq_self (l : List String) : ∀ seen : List String, l.Nodup →
    (∀ x ∈ l, x ∉ seen) → dedupKeysAux seen l = l := by
  induction l with
  | nil => intro seen _ _; rfl
  | cons k rest ih =>
    intro seen hnd hdisj
    have hk : k ∉ seen := hdisj k (List.mem_cons_self k rest)
    rw [dedupKeysAux, if_neg hk, ih (k :: seen) (List.Nodup.of_cons hnd)]
    intro x hx
    simp only [List.mem_cons, not_or]
    exact ⟨fun he => (List.nodup_cons.mp hnd).1 (he ▸ hx), hdisj x (List.mem_cons_of_mem k hx)⟩

theorem dedupKeys_eq_self (l : List String) (h : l.Nodup) : dedupKeys l = l :=
  dedupKeysAux_eq_self l [] h (fun x _ => List.not_mem_nil x)

theorem objEntries_eq_self {v : Type} (o : List (String × v))
    (h : (o.map Prod.fst).Nodup) : objEntries o = o := by
  rw [objEntries, dedupKeys_eq_self _ h]
  induction o with
  | nil => rfl
  | cons p rest ih =>
    simp only [List.map_cons] at h ⊢
    have hk : p.1 ∉ rest.map Prod.fst := (List.nodup_cons.mp h).1
    rw [List.filterMap_cons]
    rw [objGet_cons_self_of_not_mem p rest hk]
    simp only [Option.map_some']
    congr 1
    rw [List.filterMap_congr (g := fun k => (objGet rest k).map (fun x => (k, x)))]
    · exact ih (List.nodup_cons.mp h).2
    · intro k hkmem
      rw [objGet_cons_of_ne p rest k (fun he => hk (he ▸ hkmem))]

/-! ### Claims about the default transforms -/

/-- C4: the default response transform reads the response body as text;
when the request's Accept header indicates JSON it returns the JSON parse
of that text, and on parse failure (`parse _ = none`) it returns the raw
text unchanged rather than raising an error; when the Accept header does
not indicate JSON it returns the raw text. -/
theorem defaultResponseTransform_spec (parse : String → Option JSValue)
    (fetchOptionToUse : FetchOptions) (resp : Response) :
    (_isOfTypeJson (objGet fetchOptionToUse.headers "Accept") = true →
      ∀ x, parse resp.text = some x →
        _defaultResponseTransform parse fetchOptionToUse resp = x)
    ∧ (_isOfTypeJson (objGet fetchOptionToUse.headers "Accept") = true →
      parse resp.text = none →
        _defaultResponseTransform parse fetchOptionToUse resp = JSValue.str resp.text)
    ∧ (_isOfTypeJson (objGet fetchOptionToUse.headers "Accept") = false →
        _defaultResponseTransform parse fetchOptionToUse resp = JSValue.str resp.text) := by
  refine ⟨fun h x hp => ?_, fun h hp => ?_, fun h => ?_⟩
  · simp [_defaultResponseTransform, h, hp]
  · simp [_defaultResponseTransform, h, hp]
  · simp [_defaultResponseTransform, h]

/-- Witness for C4 at concrete inputs: a JSON Accept header with a
succeeding parse, a JSON Accept header with a throwing parse, and a
non-JSON Accept header. -/
theorem defaultResponseTransform_spec_witness :
    _defaultResponseTransform (fun _ => some (JSValue.num 1))
        { headers := [("Accept", "application/json")] } { text := "1" } = JSValue.num 1
    ∧ _defaultResponseTransform (fun _ => none)
        { headers := [("Accept", "application/json")] } { text := "oops" } = JSValue.str "oops"
    ∧ _defaultResponseTransform (fun _ => none)
        { headers := [("Accept", "text/plain")] } { text := "raw" } = JSValue.str "raw" :=
  ⟨(defaultResponseTransform_spec (fun _ => some (JSValue.num 1))
      { headers := [("Accept", "application/json")] } { text := "1" }).1 rfl (JSValue.num 1) rfl,
   (defaultResponseTransform_spec (fun _ => none)
      { headers := [("Accept", "application/json")] } { text := "oops" }).2.1 rfl rfl,
   (defaultResponseTransform_spec (fun _ => none)
      { headers := [("Accept", "text/plain")] } { text := "raw" }).2.2 rfl⟩

/-- C3 (amended): the default request transform attaches no body for a
GET method; otherwise, with a JSON Accept header the body becomes the
JSON serialization of the body value, and with a non-JSON Accept header
the body value is passed through unchanged when it is truthy and becomes
null when it is absent or otherwise falsy (`body || null`). -/
theorem defaultRequestTransform_spec (stringify : JSValue → Option String)
    (fetchOptionToUse : FetchOptions) (body : JSValue) :
    (fetchOptionToUse.method = "GET" →
      (_defaultRequestTransform stringify fetchOptionToUse body).body = JSValue.undefined)
    ∧ (fetchOptionToUse.method ≠ "GET" →
      _isOfTypeJson (objGet fetchOptionToUse.headers "Accept") = true →
        (_defaultRequestTransform stringify fetchOptionToUse body).body
          = (stringify body).elim JSValue.undefined JSValue.str)
    ∧ (fetchOptionToUse.method ≠ "GET" →
      _isOfTypeJson (objGet fetchOptionToUse.headers "Accept") = false →
      jsTruthy body = true →
        (_defaultRequestTransform stringify fetchOptionToUse body).body = body)
    ∧ (fetchOptionToUse.method ≠ "GET" →
      _isOfTypeJson (objGet fetchOptionToUse.headers "Accept") = false →
      jsTruthy body = false →
        (_defaultRequestTransform stringify fetchOptionToUse body).body = JSValue.null) := by
  refine ⟨fun h => ?_, fun h hj => ?_, fun h hj ht => ?_, fun h hj ht => ?_⟩
  · simp [_defaultRequestTransform, h]
  · simp [_defaultRequestTransform, h, hj]
  · simp [_defaultRequestTransform, h, hj, ht]
  · simp [_defaultRequestTransform, h, hj, ht]

/-- Counterexample to C3 as stated: with a non-GET method, a non-JSON
Accept header and the present-but-falsy body value `""`, the transformed
body is `null`, not the body value passed through unchanged. -/
theorem defaultRequestTransform_falsy_counterexample :
    (_defaultRequestTransform (fun _ => none)
        { url := "u", method := "POST", headers := [("Accept", "text/plain")] }
        (JSValue.str "")).body = JSValue.null
    ∧ (JSValue.null ≠ JSValue.str "") :=
  ⟨rfl, fun h => nomatch h⟩

/-- Witness for C3 (amended) at concrete inputs: a GET request with a
bound body, a POST with JSON Accept, a POST with non-JSON Accept and a
truthy body, and a POST with non-JSON Accept and an absent body. -/
theorem defaultRequestTransform_spec_witness :
    (_defaultRequestTransform (fun _ => some "S")
        { method := "GET", headers := [("Accept", "application/json")] }
        (JSValue.str "x")).body = JSValue.undefined
    ∧ (_defaultRequestTransform (fun _ => some "S")
        { method := "POST", headers := [("Accept", "application/json")] }
        (JSValue.obj [("x", JSValue.num 1)])).body = JSValue.str "S"
    ∧ (_defaultRequestTransform (fun _ => some "S")
        { method := "POST", headers := [("Accept", "text/plain")] }
        (JSValue.str "x")).body = JSValue.str "x"
    ∧ (_defaultRequestTransform (fun _ => some "S")
        { method := "POST", headers := [("Accept", "text/plain")] }
        JSValue.undefined).body = JSValue.null :=
  ⟨(defaultRequestTransform_spec (fun _ => some "S")
      { method := "GET", headers := [("Accept", "application/json")] } (JSValue.str "x")).1 rfl,
   (defaultRequestTransform_spec (fun _ => some "S")
      { method := "POST", headers := [("Accept", "application/json")] }
      (JSValue.obj [("x", JSValue.num 1)])).2.1 (fun h => nomatch h) rfl,
   (defaultRequestTransform_spec (fun _ => some "S")
      { method := "POST", headers := [("Accept", "text/plain")] }
      (JSValue.str "x")).2.2.1 (fun h => nomatch h) rfl rfl,
   (defaultRequestTransform_spec (fun _ => some "S")
      { method := "POST", headers := [("Accept", "text/plain")] }
      JSValue.undefined).2.2.2 (fun h => nomatch h) rfl rfl⟩

/-! ### Claims about the HTTP method and the client configurator -/

/-- C10: when the annotation options omit the HTTP method the assembled
request uses method GET; a configured method string is upper-cased before
being placed into the fetch options, so the lowercase spelling `get` is
treated as GET by the default request transform and no body is attached. -/
theorem restApi_method_default_uppercase
    (url : String) (restApiOptions : RestApiOptions) (inst : ClientInstance)
    (methodName : String) (inputs : List JSValue) (qsStringify : JSValue → String)
    (stringify : JSValue → Option String) (body : JSValue) :
    (restApiOptions.method = none →
      (RestApi url restApiOptions inst methodName inputs qsStringify).fetchOptions.method
        = "GET")
    ∧ (∀ m, restApiOptions.method = some m →
      (RestApi url restApiOptions inst methodName inputs qsStringify).fetchOptions.method
        = jsToUpperCase m)
    ∧ (restApiOptions.method = some "get" →
      (_defaultRequestTransform stringify
          (RestApi url restApiOptions inst methodName inputs qsStringify).fetchOptions
          body).body
        = JSValue.undefined) := by
  refine ⟨fun h => ?_, fun m h => ?_, fun h => ?_⟩
  · simp [RestApi, h]
    rfl
  · simp [RestApi, h]
  · have hup : jsToUpperCase "get" = "GET" := rfl
    simp [RestApi, _defaultRequestTransform, h, hup]

/-- Witness for C10 at concrete inputs: omitted method, an explicit
lowercase `post`, and the lowercase `get` fed through the default
request transform. -/
theorem restApi_method_default_uppercase_witness :
    (RestApi "/a" {} {} "m" [] (fun _ => "")).fetchOptions.method = "GET"
    ∧ (RestApi "/a" { method := some "post" } {} "m" [] (fun _ => "")).fetchOptions.method
        = jsToUpperCase "post"
    ∧ (_defaultRequestTransform (fun _ => some "S")
        (RestApi "/a" { method := some "get" } {} "m" [] (fun _ => "")).fetchOptions
        (JSValue.str "x")).body = JSValue.undefined :=
  ⟨(restApi_method_default_uppercase "/a" {} {} "m" [] (fun _ => "")
      (fun _ => some "S") (JSValue.str "x")).1 rfl,
   (restApi_method_default_uppercase "/a" { method := some "post" } {} "m" [] (fun _ => "")
      (fun _ => some "S") (JSValue.str "x")).2.1 "post" rfl,
   (restApi_method_default_uppercase "/a" { method := some "get" } {} "m" [] (fun _ => "")
      (fun _ => some "S") (JSValue.str "x")).2.2 rfl⟩

/-- C8: a class decorated by `RestClient` carries a default transport
config with mode `cors`, cache `no-cache`, credentials `include` and the
default headers, each overridden by a same-named field of the
caller-supplied defaults when one is given; it also carries the base URL
and the auth type, which is the empty string when no auth mode was
supplied. -/
theorem restClient_defaults_spec (restOptions : RestClientOptions) :
    (restOptions.mode = none → (RestClient restOptions).defaultConfigs.mode = "cors")
    ∧ (∀ m, restOptions.mode = some m → (RestClient restOptions).defaultConfigs.mode = m)
    ∧ (restOptions.cache = none → (RestClient restOptions).defaultConfigs.cache = "no-cache")
    ∧ (∀ c, restOptions.cache = some c → (RestClient restOptions).defaultConfigs.cache = c)
    ∧ (restOptions.credentials = none →
        (RestClient restOptions).defaultConfigs.credentials = "include")
    ∧ (∀ c, restOptions.credentials = some c →
        (RestClient restOptions).defaultConfigs.credentials = c)
    ∧ (restOptions.headers = none →
        (RestClient restOptions).defaultConfigs.headers
          = [("Accept", "application/json"), ("Content-Type", "application/json")])
    ∧ (∀ hs, restOptions.headers = some hs →
        (RestClient restOptions).defaultConfigs.headers
          = objectAssign
              [("Accept", "application/json"), ("Content-Type", "application/json")] hs)
    ∧ (RestClient restOptions).baseUrl = restOptions.baseUrl
    ∧ (restOptions.authType = none → (RestClient restOptions).authType = "")
    ∧ (∀ a, restOptions.authType = some a → (RestClient restOptions).authType = a) := by
  refine ⟨fun h => ?_, fun m h => ?_, fun h => ?_, fun c h => ?_, fun h => ?_, fun c h => ?_,
    fun h => ?_, fun hs h => ?_, ?_, fun h => ?_, fun a h => ?_⟩
  · simp [RestClient, h]
  · simp [RestClient, h]
  · simp [RestClient, h]
  · simp [RestClient, h]
  · simp [RestClient, h]
  · simp [RestClient, h]
  · simp [RestClient, h, objectAssign]
  · simp [RestClient, h, objectAssign]
  · simp [RestClient]
  · simp [RestClient, h]
  · simp [RestClient, h]

/-- Witness for C8 at concrete inputs: once with no caller-supplied
defaults and once with every relevant field overridden. -/
theorem restClient_defaults_spec_witness :
    (RestClient { baseUrl := "b" }).defaultConfigs.mode = "cors"
    ∧ (RestClient { baseUrl := "b" }).defaultConfigs.cache = "no-cache"
    ∧ (RestClient { baseUrl := "b" }).defaultConfigs.credentials = "include"
    ∧ (RestClient { baseUrl := "b" }).defaultConfigs.headers
        = [("Accept", "application/json"), ("Content-Type", "application/json")]
    ∧ (RestClient { baseUrl := "b" }).baseUrl = "b"
    ∧ (RestClient { baseUrl := "b" }).authType = ""
    ∧ (RestClient { baseUrl := "b", authType := some "Bearer", mode := some "no-cors", cache := some "reload", credentials := some "omit", headers := some [("Accept", "text/plain")] }).defaultConfigs.mode = "no-cors"
    ∧ (RestClient { baseUrl := "b", authType := some "Bearer", mode := some "no-cors", cache := some "reload", credentials := some "omit", headers := some [("Accept", "text/plain")] }).defaultConfigs.cache = "reload"
    ∧ (RestClient { baseUrl := "b", authType := some "Bearer", mode := some "no-cors", cache := some "reload", credentials := some "omit", headers := some [("Accept", "text/plain")] }).defaultConfigs.credentials = "omit"
    ∧ (RestClient { baseUrl := "b", authType := some "Bearer", mode := some "no-cors", cache := some "reload", credentials := some "omit", headers := some [("Accept", "text/plain")] }).defaultConfigs.headers
        = objectAssign
            [("Accept", "application/json"), ("Content-Type", "application/json")]
            [("Accept", "text/plain")]
    ∧ (RestClient { baseUrl := "b", authType := some "Bearer", mode := some "no-cors", cache := some "reload", credentials := some "omit", headers := some [("Accept", "text/plain")] }).authType = "Bearer" :=
  ⟨(restClient_defaults_spec { baseUrl := "b" }).1 rfl,
   (restClient_defaults_spec { baseUrl := "b" }).2.2.1 rfl,
   (restClient_defaults_spec { baseUrl := "b" }).2.2.2.2.1 rfl,
   (restClient_defaults_spec { baseUrl := "b" }).2.2.2.2.2.2.1 rfl,
   (restClient_defaults_spec { baseUrl := "b" }).2.2.2.2.2.2.2.2.1,
   (restClient_defaults_spec { baseUrl := "b" }).2.2.2.2.2.2.2.2.2.1 rfl,
   (restClient_defaults_spec { baseUrl := "b", authType := some "Bearer", mode := some "no-cors", cache := some "reload", credentials := some "omit", headers := some [("Accept", "text/plain")] }).2.1 "no-cors" rfl,
   (restClient_defaults_spec { baseUrl := "b", authType := some "Bearer", mode := some "no-cors", cache := some "reload", credentials := some "omit", headers := some [("Accept", "text/plain")] }).2.2.2.1 "reload" rfl,
   (restClient_defaults_spec { baseUrl := "b", authType := some "Bearer", mode := some "no-cors", cache := some "reload", credentials := some "omit", headers := some [("Accept", "text/plain")] }).2.2.2.2.2.1 "omit" rfl,
   (restClient_defaults_spec { baseUrl := "b", authType := some "Bearer", mode := some "no-cors", cache := some "reload", credentials := some "omit", headers := some [("Accept", "text/plain")] }).2.2.2.2.2.2.2.1
      [("Accept", "text/plain")] rfl,
   (restClient_defaults_spec { baseUrl := "b", authType := some "Bearer", mode := some "no-cors", cache := some "reload", credentials := some "omit", headers := some [("Accept", "text/plain")] }).2.2.2.2.2.2.2.2.2.2 "Bearer" rfl⟩

/-! ### Claim about the metadata store -/

/-- C9: for each of the four registration mechanisms — path-parameter
binding, query-argument index, body-argument index, credential-role
binding — re-registering under a key that already holds a value replaces
the prior value (last registration wins), while registering under a
distinct key leaves previously registered entries unchanged. -/
theorem decorator_registration_spec (d : Decorators)
    (methodName methodName2 paramKey paramKey2 credType credType2 : String)
    (i i2 j : Nat) (propName propName2 propName3 : String) :
    (objGet ((objGet (PathParam paramKey (PathParam paramKey d methodName i) methodName i2).methods
        methodName).getD {}).pathParams paramKey = some i2)
    ∧ (paramKey2 ≠ paramKey →
      objGet ((objGet (PathParam paramKey2 (PathParam paramKey d methodName i) methodName j).methods
          methodName).getD {}).pathParams paramKey = some i)
    ∧ (((objGet (QueryParams (QueryParams d methodName i) methodName i2).methods
        methodName).getD {}).queryParams = some i2)
    ∧ (methodName2 ≠ methodName →
      ((objGet (QueryParams (QueryParams d methodName i) methodName2 j).methods
          methodName).getD {}).queryParams = some i)
    ∧ (((objGet (RequestBody (RequestBody d methodName i) methodName i2).methods
        methodName).getD {}).requestBody = some i2)
    ∧ (methodName2 ≠ methodName →
      ((objGet (RequestBody (RequestBody d methodName i) methodName2 j).methods
          methodName).getD {}).requestBody = some i)
    ∧ (objGet (CredentialProperty credType (CredentialProperty credType d propName)
        propName2).credProps credType = some propName2)
    ∧ (credType2 ≠ credType →
      objGet (CredentialProperty credType2 (CredentialProperty credType d propName)
          propName3).credProps credType = some propName) := by
  refine ⟨?_, fun hne => ?_, ?_, fun hne => ?_, ?_, fun hne => ?_, ?_, fun hne => ?_⟩
  · simp [PathParam, objGet_objSet_self]
  · simp [PathParam, objGet_objSet_self, objGet_objSet_of_ne _ _ _ _ hne]
  · simp [QueryParams, objGet_objSet_self]
  · simp [QueryParams, objGet_objSet_self, objGet_objSet_of_ne _ _ _ _ hne]
  · simp [RequestBody, objGet_objSet_self]
  · simp [RequestBody, objGet_objSet_self, objGet_objSet_of_ne _ _ _ _ hne]
  · simp [CredentialProperty, objGet_objSet_self]
  · simp [CredentialProperty, objGet_objSet_self, objGet_objSet_of_ne _ _ _ _ hne]

/-- Witness for C9 at concrete inputs, starting from an empty decorator
table. -/
theorem decorator_registration_spec_witness :
    (objGet ((objGet (PathParam "id" (PathParam "id" {} "m" 0) "m" 1).methods
        "m").getD {}).pathParams "id" = some 1)
    ∧ (objGet ((objGet (PathParam "name" (PathParam "id" {} "m" 0) "m" 2).methods
        "m").getD {}).pathParams "id" = some 0)
    ∧ (((objGet (QueryParams (QueryParams {} "m" 0) "m" 1).methods "m").getD {}).queryParams
        = some 1)
    ∧ (((objGet (QueryParams (QueryParams {} "m" 0) "m2" 2).methods "m").getD {}).queryParams
        = some 0)
    ∧ (((objGet (RequestBody (RequestBody {} "m" 0) "m" 1).methods "m").getD {}).requestBody
        = some 1)
    ∧ (((objGet (RequestBody (RequestBody {} "m" 0) "m2" 2).methods "m").getD {}).requestBody
        = some 0)
    ∧ (objGet (CredentialProperty "AccessToken"
        (CredentialProperty "AccessToken" {} "t1") "t2").credProps "AccessToken" = some "t2")
    ∧ (objGet (CredentialProperty "Username"
        (CredentialProperty "AccessToken" {} "t1") "u1").credProps "AccessToken" = some "t1") :=
  ⟨(decorator_registration_spec {} "m" "m2" "id" "name" "AccessToken" "Username"
      0 1 2 "t1" "t2" "u1").1,
   (decorator_registration_spec {} "m" "m2" "id" "name" "AccessToken" "Username"
      0 1 2 "t1" "t2" "u1").2.1 (by decide),
   (decorator_registration_spec {} "m" "m2" "id" "name" "AccessToken" "Username"
      0 1 2 "t1" "t2" "u1").2.2.1,
   (decorator_registration_spec {} "m" "m2" "id" "name" "AccessToken" "Username"
      0 1 2 "t1" "t2" "u1").2.2.2.1 (by decide),
   (decorator_registration_spec {} "m" "m2" "id" "name" "AccessToken" "Username"
      0 1 2 "t1" "t2" "u1").2.2.2.2.1,
   (decorator_registration_spec {} "m" "m2" "id" "name" "AccessToken" "Username"
      0 1 2 "t1" "t2" "u1").2.2.2.2.2.1 (by decide),
   (decorator_registration_spec {} "m" "m2" "id" "name" "AccessToken" "Username"
      0 1 2 "t1" "t2" "u1").2.2.2.2.2.2.1,
   (decorator_registration_spec {} "m" "m2" "id" "name" "AccessToken" "Username"
      0 1 2 "t1" "t2" "u1").2.2.2.2.2.2.2 (by decide)⟩

/-! ### Claims about the Authorization header -/

theorem utf8EncodeChar_ne_nil (c : Char) : utf8EncodeChar c ≠ [] := by
  simp only [utf8EncodeChar]
  split <;> try simp
  split <;> try simp
  split <;> simp

theorem base64Chunks_ne_nil (bs : List Nat) (h : bs ≠ []) : base64Chunks bs ≠ [] := by
  rcases bs with _ | ⟨a, _ | ⟨b, _ | ⟨c, rest⟩⟩⟩
  · exact absurd rfl h
  · simp [base64Chunks]
  · simp [base64Chunks]
  · simp [base64Chunks]

theorem getBase64FromString_ne_empty (s : String) (h : s.data ≠ []) :
    _getBase64FromString s ≠ "" := by
  rw [_getBase64FromString]
  intro he
  have hdata : base64Chunks (s.data.map utf8EncodeChar).flatten = [] := by
    have := congrArg String.data he
    simpa using this
  rcases hs : s.data with _ | ⟨c, rest⟩
  · exact h hs
  · rw [hs] at hdata
    simp only [List.map_cons, List.flatten_cons] at hdata
    have hne : utf8EncodeChar c ++ (rest.map utf8EncodeChar).flatten ≠ [] := by
      simp [utf8EncodeChar_ne_nil c]
    exact base64Chunks_ne_nil _ hne hdata

/-- C5: when an auth mode and a resolvable (truthy) credential are both
present, the outgoing Authorization header is the auth-type string, a
space, and the credential; concretely, Bearer with a registered
access-token property holding `tok` yields exactly `Bearer tok`, and
Basic with registered username `u` and password `p` yields exactly
`Basic ` followed by the base64 encoding of `u:p`. -/
theorem restApi_authorization_header
    (url : String) (restApiOptions : RestApiOptions) (inst : ClientInstance)
    (methodName : String) (inputs : List JSValue) (qsStringify : JSValue → String) :
    (inst.authType ≠ "" → jsTruthy (_getCredential inst) = true →
      objGet (RestApi url restApiOptions inst methodName inputs
          qsStringify).fetchOptions.headers "Authorization"
        = some (inst.authType ++ " " ++ jsToString (_getCredential inst)))
    ∧ objGet (RestApi "/a" {} { baseUrl := "b", authType := "Bearer", decorators := { credProps := [("AccessToken", "token")] }, props := [("token", JSValue.str "tok")] } "m" [] (fun _ => "")).fetchOptions.headers "Authorization"
        = some "Bearer tok"
    ∧ objGet (RestApi "/a" {} { baseUrl := "b", authType := "Basic", decorators := { credProps := [("Username", "u1"), ("Password", "p1")] }, props := [("u1", JSValue.str "u"), ("p1", JSValue.str "p")] } "m" [] (fun _ => "")).fetchOptions.headers "Authorization"
        = some ("Basic " ++ _getBase64FromString "u:p") := by
  refine ⟨fun h1 h2 => ?_, rfl, rfl⟩
  simp [RestApi, h1, h2, objGet_objSet_self]

/-- Witness for C5's general part at a concrete Bearer client (the two
concrete parts of the theorem are already closed). -/
theorem restApi_authorization_header_witness :
    objGet (RestApi "/w" {} { baseUrl := "b", authType := "Bearer", decorators := { credProps := [("AccessToken", "token")] }, props := [("token", JSValue.str "secret")] } "m" [] (fun _ => "")).fetchOptions.headers "Authorization"
      = some ("Bearer" ++ " " ++ jsToString (_getCredential { baseUrl := "b", authType := "Bearer", decorators := { credProps := [("AccessToken", "token")] }, props := [("token", JSValue.str "secret")] })) :=
  (restApi_authorization_header "/w" {} { baseUrl := "b", authType := "Bearer", decorators := { credProps := [("AccessToken", "token")] }, props := [("token", JSValue.str "secret")] } "m" [] (fun _ => "")).1
    (by decide) rfl

/-- C2 (amended): when the auth type is Digest (unimplemented), or Bearer
with no access-token property registered (and no instance property
literally named `undefined`), credential computation yields `undefined`
and no Authorization header is added, with no error in either case; but
for Basic with missing username/password the credential resolves to the
base64 of the JS-coerced string `username:password` (so
`undefined:undefined` when both are missing) and an Authorization header
IS added. -/
theorem auth_header_unresolvable_spec
    (url : String) (restApiOptions : RestApiOptions) (inst : ClientInstance)
    (methodName : String) (inputs : List JSValue) (qsStringify : JSValue → String) :
    (inst.authType = "Digest" →
      (RestApi url restApiOptions inst methodName inputs qsStringify).fetchOptions.headers
        = objectAssign inst.defaultConfigs.headers restApiOptions.headers)
    ∧ (inst.authType = "Bearer" →
      objGet inst.decorators.credProps "AccessToken" = none →
      objGet inst.props "undefined" = none →
      (RestApi url restApiOptions inst methodName inputs qsStringify).fetchOptions.headers
        = objectAssign inst.defaultConfigs.headers restApiOptions.headers)
    ∧ (inst.authType = "Basic" →
      objGet (RestApi url restApiOptions inst methodName inputs
          qsStringify).fetchOptions.headers "Authorization"
        = some ("Basic " ++ _getBase64FromString
            (jsToString (jsGet inst.props
                ((objGet inst.decorators.credProps "Username").getD "undefined"))
              ++ ":"
              ++ jsToString (jsGet inst.props
                ((objGet inst.decorators.credProps "Password").getD "undefined"))))) := by
  refine ⟨fun h => ?_, fun h h2 h3 => ?_, fun h => ?_⟩
  · simp [RestApi, _getCredential, h, jsTruthy]
  · simp [RestApi, _getCredential, jsGet, h, h2, h3, jsTruthy]
  · have hcred : _getCredential inst
        = JSValue.str (_getBase64FromString
            (jsToString (jsGet inst.props
                ((objGet inst.decorators.credProps "Username").getD "undefined"))
              ++ ":"
              ++ jsToString (jsGet inst.props
                ((objGet inst.decorators.credProps "Password").getD "undefined")))) := by
      simp [_getCredential, h]
    have hne : _getBase64FromString
        (jsToString (jsGet inst.props
            ((objGet inst.decorators.credProps "Username").getD "undefined"))
          ++ ":"
          ++ jsToString (jsGet inst.props
            ((objGet inst.decorators.credProps "Password").getD "undefined"))) ≠ "" := by
      apply getBase64FromString_ne_empty
      simp [String.data_append]
    have htr : jsTruthy (_getCredential inst) = true := by
      rw [hcred]
      simp [jsTruthy, hne]
    rw [hcred] at htr
    have hstr : ∀ s, jsToString (JSValue.str s) = s := fun s => rfl
    simp [RestApi, h, hcred, htr, objGet_objSet_self, hstr]

/-- Counterexample to C2 as stated: for a Basic client with no username
or password registered, an Authorization header IS added to the outgoing
headers (carrying the base64 of `undefined:undefined`), contrary to the
claim that no Authorization header is added. -/
theorem auth_basic_missing_credentials_counterexample :
    objGet (RestApi "/a" {} { baseUrl := "b", authType := "Basic" } "m" [] (fun _ => "")).fetchOptions.headers "Authorization"
      = some "Basic dW5kZWZpbmVkOnVuZGVmaW5lZA=="
    ∧ objGet (RestApi "/a" {} { baseUrl := "b", authType := "Basic" } "m" [] (fun _ => "")).fetchOptions.headers "Authorization"
      ≠ none := by
  refine ⟨rfl, fun h => ?_⟩
  exact Option.noConfusion
    ((rfl : objGet (RestApi "/a" {} { baseUrl := "b", authType := "Basic" } "m" []
        (fun _ => "")).fetchOptions.headers "Authorization"
      = some "Basic dW5kZWZpbmVkOnVuZGVmaW5lZA==").symm.trans h)

/-- Witness for C2 (amended) at concrete clients: a Digest client, a
Bearer client with nothing registered, and a Basic client with nothing
registered. -/
theorem auth_header_unresolvable_spec_witness :
    (RestApi "/a" {} { baseUrl := "b", authType := "Digest" } "m" [] (fun _ => "")).fetchOptions.headers
      = objectAssign ({} : DefaultConfigs).headers ({} : RestApiOptions).headers
    ∧ (RestApi "/a" {} { baseUrl := "b", authType := "Bearer" } "m" [] (fun _ => "")).fetchOptions.headers
      = objectAssign ({} : DefaultConfigs).headers ({} : RestApiOptions).headers
    ∧ objGet (RestApi "/a" {} { baseUrl := "b", authType := "Basic" } "m" [] (fun _ => "")).fetchOptions.headers "Authorization"
      = some ("Basic " ++ _getBase64FromString
          (jsToString (jsGet [] ((objGet ([] : List (String × String)) "Username").getD "undefined"))
            ++ ":"
            ++ jsToString (jsGet [] ((objGet ([] : List (String × String)) "Password").getD "undefined")))) :=
  ⟨(auth_header_unresolvable_spec "/a" {} { baseUrl := "b", authType := "Digest" } "m" []
      (fun _ => "")).1 rfl,
   (auth_header_unresolvable_spec "/a" {} { baseUrl := "b", authType := "Bearer" } "m" []
      (fun _ => "")).2.1 rfl rfl rfl,
   (auth_header_unresolvable_spec "/a" {} { baseUrl := "b", authType := "Basic" } "m" []
      (fun _ => "")).2.2 rfl⟩

/-! ### Claim about header merging -/

/-- C7: for a client with no auth mode, the effective request headers are
the merge, in increasing precedence, of the built-in defaults
(`Accept`/`Content-Type: application/json`), the class-level default
headers given to `RestClient`, and the per-call-site headers of the
method's options: a per-call-site value wins over a class-level value,
which wins over the built-in default. -/
theorem headers_merge_precedence
    (restOptions : RestClientOptions) (decorators : Decorators)
    (props : List (String × JSValue)) (url methodName : String)
    (inputs : List JSValue) (qsStringify : JSValue → String)
    (restApiOptions : RestApiOptions) (k : String)
    (hauth : restOptions.authType = none) :
    objGet (RestApi url restApiOptions (mkInstance (RestClient restOptions) decorators props)
        methodName inputs qsStringify).fetchOptions.headers k
      = (objGet restApiOptions.headers k).elim
          ((objGet (restOptions.headers.getD []) k).elim
            (objGet [("Accept", "application/json"), ("Content-Type", "application/json")] k)
            some)
          some := by
  simp [RestApi, mkInstance, RestClient, hauth, objGet_objectAssign]

/-- Witness for C7 at a concrete client: the same header name set at all
three levels resolves to the per-call-site value, a name set at class and
built-in level resolves to the class value, and an untouched name
resolves to the built-in default. -/
theorem headers_merge_precedence_witness :
    objGet (RestApi "/a" { headers := [("Accept", "text/call")] }
        (mkInstance (RestClient { baseUrl := "b", headers := some [("Accept", "text/class"), ("Content-Type", "text/class")] }) {} [])
        "m" [] (fun _ => "")).fetchOptions.headers "Accept" = some "text/call"
    ∧ objGet (RestApi "/a" { headers := [("Accept", "text/call")] }
        (mkInstance (RestClient { baseUrl := "b", headers := some [("Accept", "text/class"), ("Content-Type", "text/class")] }) {} [])
        "m" [] (fun _ => "")).fetchOptions.headers "Content-Type" = some "text/class"
    ∧ objGet (RestApi "/a" { headers := [("X-Extra", "1")] }
        (mkInstance (RestClient { baseUrl := "b" }) {} [])
        "m" [] (fun _ => "")).fetchOptions.headers "Content-Type" = some "application/json" := by
  refine ⟨?_, ?_, ?_⟩
  · rw [headers_merge_precedence { baseUrl := "b", headers := some [("Accept", "text/class"), ("Content-Type", "text/class")] }
      {} [] "/a" "m" [] (fun _ => "") { headers := [("Accept", "text/call")] } "Accept" rfl]
    decide
  · rw [headers_merge_precedence { baseUrl := "b", headers := some [("Accept", "text/class"), ("Content-Type", "text/class")] }
      {} [] "/a" "m" [] (fun _ => "") { headers := [("Accept", "text/call")] } "Content-Type" rfl]
    decide
  · rw [headers_merge_precedence { baseUrl := "b" }
      {} [] "/a" "m" [] (fun _ => "") { headers := [("X-Extra", "1")] } "Content-Type" rfl]
    decide

/-! ### Claims about the URL -/

/-- C6: when the query-params value of the invocation is an object with
at least one own key, the serialized query string is appended to the URL
after a `?`; when it is an object with zero own keys (which is also what
an absent or falsy query argument resolves to via `|| {}`), nothing is
appended. -/
theorem restApi_query_string_spec
    (url : String) (restApiOptions : RestApiOptions) (inst : ClientInstance)
    (methodName : String) (inputs : List JSValue) (qsStringify : JSValue → String)
    (fields : List (String × JSValue))
    (hq : _getQueryParams inst methodName inputs = JSValue.obj fields) :
    (fields ≠ [] →
      (RestApi url restApiOptions inst methodName inputs qsStringify).fetchOptions.url
        = ((objEntries (_getPathParams inst methodName)).foldl
            (fun u kv => jsReplaceAll u ("\x7b" ++ kv.1 ++ "\x7d")
              (jsToString (inputs.getD kv.2 JSValue.undefined)))
            (inst.baseUrl ++ url)) ++ "?" ++ qsStringify (JSValue.obj fields))
    ∧ (fields = [] →
      (RestApi url restApiOptions inst methodName inputs qsStringify).fetchOptions.url
        = (objEntries (_getPathParams inst methodName)).foldl
            (fun u kv => jsReplaceAll u ("\x7b" ++ kv.1 ++ "\x7d")
              (jsToString (inputs.getD kv.2 JSValue.undefined)))
            (inst.baseUrl ++ url)) := by
  refine ⟨fun hne => ?_, fun hnil => ?_⟩
  · obtain ⟨p, rest, rfl⟩ := List.exists_cons_of_ne_nil hne
    simp [RestApi, hq, jsKeys, dedupKeys, dedupKeysAux]
  · subst hnil
    simp [RestApi, hq, jsKeys, dedupKeys, dedupKeysAux]

/-- Witness for C6 at a concrete client with a query-argument binding:
invoking with a two-key object appends the serialized query string, and
invoking with an empty object appends nothing. -/
theorem restApi_query_string_spec_witness :
    (RestApi "/q" {} { baseUrl := "b", decorators := { methods := [("m", { queryParams := some 0 })] } } "m"
        [JSValue.obj [("a", JSValue.num 1), ("b", JSValue.num 2)]]
        (fun _ => "a=1&b=2")).fetchOptions.url = "b/q?a=1&b=2"
    ∧ (RestApi "/q" {} { baseUrl := "b", decorators := { methods := [("m", { queryParams := some 0 })] } } "m"
        [JSValue.obj []] (fun _ => "XX")).fetchOptions.url = "b/q" := by
  constructor
  · rw [(restApi_query_string_spec "/q" {} { baseUrl := "b", decorators := { methods := [("m", { queryParams := some 0 })] } } "m"
        [JSValue.obj [("a", JSValue.num 1), ("b", JSValue.num 2)]]
        (fun _ => "a=1&b=2") [("a", JSValue.num 1), ("b", JSValue.num 2)] rfl).1
        (fun h => nomatch h)]
    rfl
  · rw [(restApi_query_string_spec "/q" {} { baseUrl := "b", decorators := { methods := [("m", { queryParams := some 0 })] } } "m"
        [JSValue.obj []] (fun _ => "XX") [] rfl).2 rfl]
    rfl

/-- C1: when no query string is appended, the target URL is the
concatenation of the client's base URL and the method's URL template in
which, for every registered path-placeholder-to-argument-index binding
(each key registered once), every occurrence of the literal token
`\x7bname\x7d` is replaced (globally) by the string form of the argument
at that index; any placeholder with no registered binding is left
verbatim and no error is raised. -/
theorem restApi_url_path_substitution
    (url : String) (restApiOptions : RestApiOptions) (inst : ClientInstance)
    (methodName : String) (inputs : List JSValue) (qsStringify : JSValue → String)
    (hnd : ((_getPathParams inst methodName).map Prod.fst).Nodup)
    (hq : jsKeys (_getQueryParams inst methodName inputs) = []) :
    (RestApi url restApiOptions inst methodName inputs qsStringify).fetchOptions.url
      = (_getPathParams inst methodName).foldl
          (fun u kv => jsReplaceAll u ("\x7b" ++ kv.1 ++ "\x7d")
            (jsToString (inputs.getD kv.2 JSValue.undefined)))
          (inst.baseUrl ++ url) := by
  simp [RestApi, hq, objEntries_eq_self _ hnd]

/-- Witness for C1 at the spec's example: template `/users/\x7bid\x7d`
with binding `id` to argument 0, invoked with `"42"`, produces
`http://api/users/42`, and an unbound placeholder stays verbatim. -/
theorem restApi_url_path_substitution_witness :
    (RestApi "/users/\x7bid\x7d" {} { baseUrl := "http://api", decorators := { methods := [("getUser", { pathParams := [("id", 0)] })] } } "getUser"
        [JSValue.str "42"] (fun _ => "")).fetchOptions.url = "http://api/users/42"
    ∧ (RestApi "/users/\x7bid\x7d/posts/\x7bpostId\x7d" {} { baseUrl := "http://api", decorators := { methods := [("getPost", { pathParams := [("id", 0)] })] } } "getPost"
        [JSValue.str "42"] (fun _ => "")).fetchOptions.url
      = "http://api/users/42/posts/\x7bpostId\x7d" := by
  constructor
  · rw [restApi_url_path_substitution "/users/\x7bid\x7d" {} { baseUrl := "http://api", decorators := { methods := [("getUser", { pathParams := [("id", 0)] })] } } "getUser"
        [JSValue.str "42"] (fun _ => "") (by decide) rfl]
    rfl
  · rw [restApi_url_path_substitution "/users/\x7bid\x7d/posts/\x7bpostId\x7d" {} { baseUrl := "http://api", decorators := { methods := [("getPost", { pathParams := [("id", 0)] })] } } "getPost"
        [JSValue.str "42"] (fun _ => "") (by decide) rfl]
    rfl
